import Mathlib

/-!
Verification of the symbolic tensor-expression builder implemented in
`tensorflow/python/ops/math_ops.py`: dtype promotion for true-division,
reduction-axis resolution, saturating cast, and tensor contraction
(`tensordot`) via reshape/transpose/matmul.

The embedding is shallow: tensors are concrete shape/data pairs, symbolic
graph nodes are evaluated directly, and Python exceptions become values of
an explicit error type.  Integer arithmetic is modelled with `Int`/`Nat`
(Python integers are unbounded).  Out-of-range list indexing, which would
raise in Python, is totalised with default values; all theorems below only
exercise in-range indices.
-/

deriving instance DecidableEq for Except

namespace TF

/-- Error taxonomy of the module (Python `TypeError`/`ValueError` messages,
classified as in the error-handling design). -/
inductive TFError where
  | TypeMismatch
  | UnsupportedType
  | ConflictingArguments
  | InvalidAxesLength
  | InvalidAxisCount
  | ShapeMismatch
  | InvalidArgument
deriving DecidableEq, Repr

/-- The dtypes appearing in `_TRUEDIV_TABLE` plus two non-numeric dtypes
(`bool`, `string`) that have no table entry. -/
inductive DType where
  | uint8
  | int8
  | uint16
  | int16
  | int32
  | int64
  | float16
  | float32
  | float64
  | complex64
  | complex128
  | bool
  | string
deriving DecidableEq, Repr, Fintype

/-- `_TRUEDIV_TABLE`: conversion table for `__truediv__`.  `none` means the
dtype has no entry (a `KeyError` in the source); `some none` models a `None`
entry, meaning no conversion is required. -/
def TRUEDIV_TABLE : DType → Option (Option DType)
  | .uint8 => some (some .float32)
  | .int8 => some (some .float32)
  | .uint16 => some (some .float32)
  | .int16 => some (some .float32)
  | .int32 => some (some .float64)
  | .int64 => some (some .float64)
  | .float16 => some none
  | .float32 => some none
  | .float64 => some none
  | .complex64 => some none
  | .complex128 => some none
  | _ => none

/-- The dtype logic of `_truediv_python3`: both operands are converted to
tensors, their base dtypes must agree, the table is consulted (a missing key
raises), and when the entry is not `None` both operands are cast to it before
`real_div`.  The returned dtype is the common dtype of the division's
operands, hence of its result. -/
def truediv_python3 (x_dtype y_dtype : DType) : Except TFError DType :=
  if x_dtype ≠ y_dtype then
    .error .TypeMismatch
  else
    match TRUEDIV_TABLE x_dtype with
    | none => .error .UnsupportedType
    | some none => .ok x_dtype
    | some (some d) => .ok d

/-- Modelled from the spec: the `min` property of the dtypes module (not part
of the source slice), the minimum representable value of each dtype, as an
exact integer.  Integer dtypes use their numpy `iinfo` bounds; floating
dtypes use the exact value of their (integral) numpy `finfo` bounds
(`float16`: −65504, `float32`: −(2^128 − 2^104), `float64`: −(2^1024 −
2^971)); complex dtypes are given their component float bounds, and
`bool`/`string` (for which the property raises) a placeholder no theorem
relies on. -/
def dtypeMin : DType → Int
  | .uint8 => 0
  | .int8 => -128
  | .uint16 => 0
  | .int16 => -32768
  | .int32 => -2147483648
  | .int64 => -9223372036854775808
  | .float16 => -65504
  | .float32 => -(2 ^ 128 - 2 ^ 104)
  | .float64 => -(2 ^ 1024 - 2 ^ 971)
  | .complex64 => -(2 ^ 128 - 2 ^ 104)
  | .complex128 => -(2 ^ 1024 - 2 ^ 971)
  | .bool => 0
  | .string => 0

/-- Modelled from the spec: the `max` property of the dtypes module, the
maximum representable value of each dtype (see `dtypeMin`). -/
def dtypeMax : DType → Int
  | .uint8 => 255
  | .int8 => 127
  | .uint16 => 65535
  | .int16 => 32767
  | .int32 => 2147483647
  | .int64 => 9223372036854775807
  | .float16 => 65504
  | .float32 => 2 ^ 128 - 2 ^ 104
  | .float64 => 2 ^ 1024 - 2 ^ 971
  | .complex64 => 2 ^ 128 - 2 ^ 104
  | .complex128 => 2 ^ 1024 - 2 ^ 971
  | .bool => 0
  | .string => 0

/-- Symbolic scalar expression: the graph nodes built by `saturate_cast`.
A `const` leaf is a converted input value (`ops.convert_to_tensor`);
`maximum`/`minimum` are the clamp nodes of `gen_math_ops`; `castOp` is a
`Cast` node. -/
inductive Expr where
  | const (dtype : DType) (val : Int)
  | maximum (a b : Expr)
  | minimum (a b : Expr)
  | castOp (dtype : DType) (a : Expr)
deriving DecidableEq, Repr

/-- The dtype of an expression: elementwise `maximum`/`minimum` keep the
dtype of their first operand, `Cast` has its target dtype. -/
def Expr.dtype : Expr → DType
  | .const d _ => d
  | .maximum a _ => a.dtype
  | .minimum a _ => a.dtype
  | .castOp d _ => d

/-- `cast`: if the value's base dtype already equals the (base) target dtype
the value itself is returned, otherwise a `Cast` node is produced.  (The
sparse-tensor branch of the source is outside this scalar model.) -/
def cast (x : Expr) (dtype : DType) : Expr :=
  if x.dtype = dtype then x else .castOp dtype x

/-- `saturate_cast`: clamp from below by the target minimum when the target
minimum exceeds the source minimum, then from above by the target maximum
when the target maximum is below the source maximum — both clamp constants
converted to the *source* dtype — and finally `cast` to the target dtype. -/
def saturate_cast (value : Expr) (dtype : DType) : Expr :=
  let value1 := if dtypeMin value.dtype < dtypeMin dtype then
      Expr.maximum value (.const value.dtype (dtypeMin dtype)) else value
  let value2 := if dtypeMax value1.dtype > dtypeMax dtype then
      Expr.minimum value1 (.const value1.dtype (dtypeMax dtype)) else value1
  cast value2 dtype

/-- Integer dtypes (those whose `Cast` kernel narrows with wraparound). -/
def isIntDType : DType → Bool
  | .uint8 | .int8 | .uint16 | .int16 | .int32 | .int64 => true
  | _ => false

/-- Modelled from the spec: the unchecked numeric cast performed by the
`Cast` kernel (external engine, not in the source slice).  Casting to an
integer dtype wraps the value into the dtype's range (C++ conversion
semantics — the wraparound the spec says saturation must avoid); other
target dtypes leave the modelled integer value unchanged. -/
def castVal (d : DType) (v : Int) : Int :=
  if isIntDType d then dtypeMin d + (v - dtypeMin d) % (dtypeMax d - dtypeMin d + 1)
  else v

/-- Numeric evaluation of a scalar expression by the external engine. -/
def evalExpr : Expr → Int
  | .const _ v => v
  | .maximum a b => max (evalExpr a) (evalExpr b)
  | .minimum a b => min (evalExpr a) (evalExpr b)
  | .castOp d a => castVal d (evalExpr a)

/-- Result of `_ReductionDims`.  `axisVal` is the axis argument returned
unchanged; `constRange` is the build-time constant
`constant_op.constant(np.arange(ndims))`; `runtimeRange` is the deferred
`range(0, rank(x))` graph computation used when the rank is unknown. -/
inductive RDResult (α : Type) where
  | axisVal (a : α)
  | constRange (xs : List Int)
  | runtimeRange
deriving DecidableEq

/-- `np.arange(n)` as a list of integers. -/
def arange (n : Nat) : List Int :=
  (List.range n).map Int.ofNat

/-- `_ReductionDims x axis reduction_indices`: the value `x` is abstracted by
its statically known rank (`ndims`, `none` when unknown; for the sparse
branch of the source this is the statically known length of `dense_shape`,
handled identically).  The legacy `reduction_indices` parameter, when given
together with `axis`, is an error; when given alone it is assigned to
`axis` and then returned unchanged like any explicit axis. -/
def ReductionDims {α : Type} (ndims : Option Nat)
    (axis reduction_indices : Option α) : Except TFError (RDResult α) :=
  match reduction_indices with
  | some ri =>
    match axis with
    | some _ => .error .ConflictingArguments
    | none => .ok (.axisVal ri)
  | none =>
    match axis with
    | some a => .ok (.axisVal a)
    | none =>
      match ndims with
      | some r => .ok (.constRange (arange r))
      | none => .ok .runtimeRange

/-- A concrete tensor: a shape and row-major flat data.  The graph is not
modelled; each op is evaluated directly, so a "statically known" shape is
always available and "runtime" quantities are computed from the same
concrete tensor. -/
structure Tensor where
  shape : List Nat
  data : List Int
deriving DecidableEq, Repr

/-- Product of a list of dimension sizes (`np.prod`/`reduce_prod`; the
product of an empty list is 1). -/
def prodl (l : List Nat) : Nat := l.foldr (· * ·) 1

/-- Row-major multi-index of flat position `k` in shape `s`. -/
def unflattenIdx : List Nat → Nat → List Nat
  | [], _ => []
  | _ :: ds, k => k / prodl ds :: unflattenIdx ds (k % prodl ds)

/-- Row-major flat position of multi-index `idx` in shape `s`. -/
def flattenIdx : List Nat → List Nat → Nat
  | [], _ => 0
  | _ :: _, [] => 0
  | _ :: ds, i :: is => i * prodl ds + flattenIdx ds is

/-- `array_ops.transpose(a, perm)`: output dimension `j` is input dimension
`perm[j]`; the entry at output multi-index `o` is the input entry whose
multi-index has value `o[j]` at position `perm[j]`. -/
def transpose (a : Tensor) (perm : List Int) : Tensor :=
  let outShape := perm.map fun p => a.shape.getD p.toNat 0
  { shape := outShape
    data := (List.range (prodl outShape)).map fun k =>
      let outIdx := unflattenIdx outShape k
      let inIdx := (List.range a.shape.length).map fun i : Nat =>
        outIdx.getD (perm.findIdx (· == Int.ofNat i)) 0
      a.data.getD (flattenIdx a.shape inIdx) 0 }

/-- `array_ops.reshape(a, s)`: the same flat data under a new shape. -/
def reshape (a : Tensor) (s : List Nat) : Tensor := ⟨s, a.data⟩

/-- `matmul` on 2-D operands of shapes `[m, k]` and `[k, n]`. -/
def matmul (a b : Tensor) : Tensor :=
  let m := a.shape.getD 0 0
  let k := a.shape.getD 1 0
  let n := b.shape.getD 1 0
  { shape := [m, n]
    data := (List.range (m * n)).map fun idx =>
      let i := idx / n
      let j := idx % n
      ((List.range k).map fun t =>
        a.data.getD (i * k + t) 0 * b.data.getD (t * n + j) 0).foldr (· + ·) 0 }

/-- `array_ops.setdiff1d(x, y)`: the values of `x` not in `y`, in order. -/
def setdiff1d (x y : List Int) : List Int := x.filter fun v => !(y.contains v)

/-- `array_ops.gather(shape, idx)` on a 1-D shape tensor. -/
def gather (shape : List Nat) (idx : List Int) : List Nat :=
  idx.map fun i => shape.getD i.toNat 0

/-- `tf.range(start, limit)` with unit step, as its list of values. -/
def rangeInt (start limit : Int) : List Int :=
  (List.range (limit - start).toNat).map fun i : Nat => start + i

/-- A per-operand contraction-axis list produced by `_tensordot_axes`,
tagged by whether it is a plain Python list (`lst`) or an `int32` tensor of
axis values (`tens`) — `_tensordot_reshape` dispatches on this tag. -/
inductive AxesSpec where
  | lst (xs : List Int)
  | tens (xs : List Int)
deriving DecidableEq, Repr

/-- The `axes` argument of `tensordot`: a scalar integer, a list/tuple of
two axis lists, or a 2×k integer tensor (given by its two rows; the source
splits such a tensor into `axes[0]` and `axes[1]` without validation). -/
inductive TAxes where
  | scalar (n : Int)
  | lists (rows : List (List Int))
  | tensor (row0 row1 : List Int)
deriving DecidableEq, Repr

/-- `_tensordot_axes`: a scalar `N` means the last `N` axes of `a` against
the first `N` axes of `b`; `N` below 1 is an error.  With the rank
statically known the source builds the two `tf.range` node values below
(the module-level `range` is TensorFlow's, so they are `int32` tensors,
tagged `tens`); the runtime-rank branch is modelled by
`tensordot_axes_dynamic`, which for `b` computes `range(rank)` rather than
`range(axes)`.  A list `axes` must have two rows, of equal length; a tensor
`axes` is split into its rows. -/
def tensordot_axes (aNdims : Nat) (axes : TAxes) :
    Except TFError (AxesSpec × AxesSpec) :=
  match axes with
  | .scalar n =>
    if n < 1 then .error .InvalidAxisCount
    else .ok (.tens (rangeInt ((aNdims : Int) - n) aNdims),
              .tens (rangeInt 0 n))
  | .lists rows =>
    if rows.length ≠ 2 then .error .InvalidArgument
    else
      let a_axes := rows.getD 0 []
      let b_axes := rows.getD 1 []
      if a_axes.length ≠ b_axes.length then .error .InvalidAxesLength
      else .ok (.lst a_axes, .lst b_axes)
  | .tensor row0 row1 => .ok (.tens row0, .tens row1)

/-- The runtime-rank branch of `_tensordot_axes` for a scalar `axes`:
`array_ops.range(rank - axes, rank)` for `a` and `array_ops.range(rank)` —
the full `[0 .. rank-1]`, not `range(axes)` — for `b`, both computed from
the runtime rank of `a`.  The second range contradicts the function's
docstring ("the first N axes of b in order") and the
statically-known-rank branch above, which build `range(axes)`. -/
def tensordot_axes_dynamic (rank : Nat) (n : Int) : AxesSpec × AxesSpec :=
  (.tens (rangeInt ((rank : Int) - n) rank), .tens (rangeInt 0 rank))

/-- The static branch of `_tensordot_reshape` (shape fully defined and axes
a plain list): negative axes are normalised by adding the rank, the free
axes are those not contracted (in order), the permutation is
free-then-contracted for the left operand and contracted-then-free for the
right (`flipped`) one, and the operand is transposed then reshaped to the
2-D shape of the two products.  Returns the reshaped tensor and the free
dimension sizes. -/
def tensordot_reshape_static (a : Tensor) (axes0 : List Int)
    (flipped : Bool) : Tensor × List Nat :=
  let shape_a := a.shape
  let axes : List Int := axes0.map fun i =>
    if i ≥ 0 then i else i + (shape_a.length : Int)
  let free : List Nat := (List.range shape_a.length).filter
    fun i => !(axes.contains (Int.ofNat i))
  let free_dims := free.map fun i => shape_a.getD i 0
  let prod_free := prodl (free.map fun i => shape_a.getD i 0)
  let prod_axes := prodl (axes.map fun i => shape_a.getD i.toNat 0)
  let perm := if flipped then axes ++ free.map Int.ofNat
              else free.map Int.ofNat ++ axes
  let new_shape := if flipped then [prod_axes, prod_free]
                   else [prod_free, prod_axes]
  (reshape (transpose a perm) new_shape, free_dims)

/-- The dynamic branch of `_tensordot_reshape` (shape or axes not statically
known): the same quantities computed with graph ops — elementwise
normalisation of negative axes, `setdiff1d` against `range(rank)` for the
free axes, `gather` for dimension sizes, `reduce_prod`, `stack` — here
evaluated on the concrete tensor.  (The source's first assignment to `perm`
is overwritten in both arms of the `if` and has no effect.) -/
def tensordot_reshape_dynamic (a : Tensor) (axes0 : List Int)
    (flipped : Bool) : Tensor × List Nat :=
  let shape_a := a.shape
  let rank_a := a.shape.length
  let axes := axes0.map fun i =>
    (if i ≥ 0 then (1 : Int) else 0) * i
      + (if i < 0 then (1 : Int) else 0) * (i + rank_a)
  let free := setdiff1d ((List.range rank_a).map Int.ofNat) axes
  let free_dims := gather shape_a free
  let axes_dims := gather shape_a axes
  let prod_free_dims := prodl free_dims
  let prod_axes_dims := prodl axes_dims
  let perm := if flipped then axes ++ free else free ++ axes
  let new_shape := if flipped then [prod_axes_dims, prod_free_dims]
                   else [prod_free_dims, prod_axes_dims]
  (reshape (transpose a perm) new_shape, free_dims)

/-- `_tensordot_reshape` dispatch: the static branch runs only when the
shape is fully defined (always true in this embedding) AND the axes are a
plain list; tensor-valued axes (including the `tf.range` values of the
scalar form) take the dynamic branch.  The Bool records whether `free_dims`
is a plain list rather than a tensor. -/
def tensordot_reshape (a : Tensor) (axes : AxesSpec) (flipped : Bool) :
    Tensor × List Nat × Bool :=
  match axes with
  | .lst xs =>
    let r := tensordot_reshape_static a xs flipped
    (r.1, r.2, true)
  | .tens xs =>
    let r := tensordot_reshape_dynamic a xs flipped
    (r.1, r.2, false)

/-- `tensordot`: normalise the axes, reshape/transpose both operands to 2-D,
matrix-multiply, and reshape the product back to A's free dimensions
followed by B's free dimensions.  When both free-dims are plain lists the
final shape is their list concatenation; otherwise the source concatenates
the two dim tensors with a graph `concat`, which on concrete values is the
same concatenation, so the two arms coincide here. -/
def tensordot (a b : Tensor) (axes : TAxes) : Except TFError Tensor :=
  match tensordot_axes a.shape.length axes with
  | .error e => .error e
  | .ok (a_axes, b_axes) =>
    let ra := tensordot_reshape a a_axes false
    let rb := tensordot_reshape b b_axes true
    let ab_matmul := matmul ra.1 rb.1
    if ra.2.2 && rb.2.2 then
      .ok (reshape ab_matmul (ra.2.1 ++ rb.2.1))
    else
      .ok (reshape ab_matmul (ra.2.1 ++ rb.2.1))

end TF

namespace TF

lemma dtypeMin_le_dtypeMax (d : DType) : dtypeMin d ≤ dtypeMax d := by
  cases d <;> norm_num [dtypeMin, dtypeMax]

lemma castVal_eq_of_mem (d : DType) (v : Int) (h1 : dtypeMin d ≤ v)
    (h2 : v ≤ dtypeMax d) : castVal d v = v := by
  unfold castVal
  split
  · have h0 : (0 : Int) ≤ v - dtypeMin d := by omega
    have hlt : v - dtypeMin d < dtypeMax d - dtypeMin d + 1 := by omega
    rw [Int.emod_eq_of_lt h0 hlt]
    omega
  · rfl

lemma map_range_getD (d : List Int) :
    (List.range d.length).map (fun k => d.getD k 0) = d := by
  induction d with
  | nil => rfl
  | cons x xs ih =>
    rw [List.length_cons, List.range_succ_eq_map, List.map_cons, List.map_map]
    simp only [Function.comp_def, Nat.succ_eq_add_one, List.getD_cons_succ,
      List.getD_cons_zero]
    rw [ih]

/-- Transposing a rank-2 tensor by the identity permutation `[0, 1]` is the
identity (both free/contracted permutations arising in the rank-2 uses of
`_tensordot_reshape` are of this form). -/
lemma transpose_id2 (m n : Nat) (d : List Int) (h : d.length = m * n) :
    transpose ⟨[m, n], d⟩ [0, 1] = ⟨[m, n], d⟩ := by
  have hidx : ∀ k : Nat, k / n * n + k % n = k := fun k => by
    rw [Nat.mul_comm (k / n) n]; exact Nat.div_add_mod k n
  have hshape : List.map (fun p : Int => ([m, n] : List Nat).getD p.toNat 0)
      ([0, 1] : List Int) = [m, n] := rfl
  simp only [transpose]
  rw [hshape]
  simp only [List.length_cons, List.length_nil, unflattenIdx, flattenIdx,
    prodl, List.foldr, mul_one, Nat.div_one, add_zero]
  simp only [zero_add,
    show List.findIdx (fun x => x == Int.ofNat 0) ([0, 1] : List Int) = 0 from rfl,
    show List.findIdx (fun x => x == Int.ofNat 1) ([0, 1] : List Int) = 1 from rfl,
    List.getD_cons_zero, List.getD_cons_succ]
  simp only [hidx]
  rw [← h, map_range_getD]

/-- The dynamic reshape of a rank-2 left operand contracting its axis 1 is
the identity: free axes `[0]`, permutation `[0, 1]`, 2-D target `[m, n]`. -/
lemma reshape_dyn_left (m n : Nat) (d : List Int) (h : d.length = m * n) :
    tensordot_reshape_dynamic ⟨[m, n], d⟩ [1] false = (⟨[m, n], d⟩, [m]) := by
  simp only [tensordot_reshape_dynamic, setdiff1d, gather]
  norm_num [List.filter]
  rw [transpose_id2 m n d h]
  simp [reshape, prodl]

/-- The dynamic reshape of a rank-2 right (`flipped`) operand contracting
its axis 0 is the identity: free axes `[1]`, permutation `[0, 1]`, 2-D
target `[n, p]`. -/
lemma reshape_dyn_right (n p : Nat) (d : List Int) (h : d.length = n * p) :
    tensordot_reshape_dynamic ⟨[n, p], d⟩ [0] true = (⟨[n, p], d⟩, [p]) := by
  simp only [tensordot_reshape_dynamic, setdiff1d, gather]
  norm_num [List.filter]
  rw [transpose_id2 n p d h]
  simp [reshape, prodl]

lemma toNat_ofNat_id (n : Nat) : (Int.ofNat n).toNat = n := rfl

lemma filter_map_comm (l : List Nat) (p : Int → Bool) :
    (l.map Int.ofNat).filter p
      = (l.filter fun i => p (Int.ofNat i)).map Int.ofNat := by
  induction l with
  | nil => rfl
  | cons x xs ih =>
    by_cases h : p (Int.ofNat x) <;>
      simp only [List.map_cons, List.filter_cons, h, Bool.false_eq_true,
        if_true, if_false, ite_true, ite_false, List.map_cons, ih]

/-- On concrete tensors the static and the dynamic branch of
`_tensordot_reshape` compute the same reshaped operand and the same free
dimension sizes: the two axis normalisations agree pointwise, `setdiff1d`
against `range(rank)` is the order-preserving filter of the non-contracted
axes, and `gather`/`reduce_prod` match the build-time indexing/products. -/
lemma reshape_static_eq_dynamic (a : Tensor) (axes0 : List Int)
    (flipped : Bool) :
    tensordot_reshape_static a axes0 flipped
      = tensordot_reshape_dynamic a axes0 flipped := by
  have hf : ∀ i : Int,
      (if i ≥ 0 then (1 : Int) else 0) * i
          + (if i < 0 then (1 : Int) else 0) * (i + (a.shape.length : Int))
        = if i ≥ 0 then i else i + (a.shape.length : Int) := by
    intro i; split_ifs <;> omega
  simp only [tensordot_reshape_static, tensordot_reshape_dynamic,
    setdiff1d, gather, hf, filter_map_comm, List.map_map,
    Function.comp_def, toNat_ofNat_id]

end TF

/-- C3: for equal-dtype operands of true-division, 8/16-bit unsigned and
signed integer dtypes are promoted to 32-bit float, 32/64-bit integer dtypes
to 64-bit float, and every floating-point or complex dtype is left unchanged. -/
theorem C3_truediv_promotion :
    TF.truediv_python3 .uint8 .uint8 = .ok .float32 ∧
    TF.truediv_python3 .int8 .int8 = .ok .float32 ∧
    TF.truediv_python3 .uint16 .uint16 = .ok .float32 ∧
    TF.truediv_python3 .int16 .int16 = .ok .float32 ∧
    TF.truediv_python3 .int32 .int32 = .ok .float64 ∧
    TF.truediv_python3 .int64 .int64 = .ok .float64 ∧
    TF.truediv_python3 .float16 .float16 = .ok .float16 ∧
    TF.truediv_python3 .float32 .float32 = .ok .float32 ∧
    TF.truediv_python3 .float64 .float64 = .ok .float64 ∧
    TF.truediv_python3 .complex64 .complex64 = .ok .complex64 ∧
    TF.truediv_python3 .complex128 .complex128 = .ok .complex128 := by
  decide

/-- C8: true-division fails with `TypeMismatch` exactly when the operand
dtypes differ, fails with `UnsupportedType` exactly when the common dtype has
no entry in the promotion table, and succeeds at this stage exactly when the
dtypes are equal and the table has an entry. -/
theorem C8_truediv_errors :
    ∀ x y : TF.DType,
      ((TF.truediv_python3 x y = .error .TypeMismatch) ↔ x ≠ y) ∧
      ((TF.truediv_python3 x y = .error .UnsupportedType) ↔
        (x = y ∧ TF.TRUEDIV_TABLE x = none)) ∧
      ((TF.truediv_python3 x y).isOk = true ↔
        (x = y ∧ (TF.TRUEDIV_TABLE x).isSome = true)) := by
  decide

/-- C4: for any source value within its dtype's range, `saturate_cast`
clamps from below to the target minimum (only when needed), then from above
to the target maximum (only when needed), both in the source dtype's domain,
and only then casts; the evaluated result is exactly the value clamped into
the target range — no wraparound occurs. -/
theorem C4_saturate_cast_clamps (src tgt : TF.DType) (v : Int)
    (h1 : TF.dtypeMin src ≤ v) (h2 : v ≤ TF.dtypeMax src) :
    TF.evalExpr (TF.saturate_cast (.const src v) tgt)
      = max (TF.dtypeMin tgt) (min (TF.dtypeMax tgt) v) := by
  have hb : TF.dtypeMin tgt ≤ TF.dtypeMax tgt := TF.dtypeMin_le_dtypeMax tgt
  by_cases hd : src = tgt
  · subst hd
    simp [TF.saturate_cast, TF.cast, TF.Expr.dtype, TF.evalExpr]
    omega
  · by_cases hlo : TF.dtypeMin src < TF.dtypeMin tgt <;>
      by_cases hhi : TF.dtypeMax src > TF.dtypeMax tgt <;>
      simp only [TF.saturate_cast, TF.cast, TF.Expr.dtype, hlo, hhi, hd,
        if_true, if_false, ite_true, ite_false] <;>
      simp only [TF.evalExpr] <;>
      rw [TF.castVal_eq_of_mem] <;>
      omega

/-- Witness for C4: saturate-casting the int32 value 300 to uint8 yields
exactly 255, and −5 yields exactly 0. -/
theorem C4_saturate_cast_clamps_witness :
    TF.evalExpr (TF.saturate_cast (.const .int32 300) .uint8) = 255 ∧
    TF.evalExpr (TF.saturate_cast (.const .int32 (-5)) .uint8) = 0 :=
  ⟨by rw [C4_saturate_cast_clamps .int32 .uint8 300 (by decide) (by decide)]; decide,
   by rw [C4_saturate_cast_clamps .int32 .uint8 (-5) (by decide) (by decide)]; decide⟩

/-- C10: when a value's dtype already equals the target dtype, `cast`
returns the value itself unchanged, and `saturate_cast` with that dtype is
the identity: neither clamp node nor a conversion node is produced. -/
theorem C10_cast_same_dtype_identity (x : TF.Expr) (d : TF.DType)
    (h : x.dtype = d) :
    TF.cast x d = x ∧ TF.saturate_cast x d = x := by
  subst h
  constructor
  · simp [TF.cast]
  · simp [TF.saturate_cast, TF.cast]

/-- Witness for C10: casting an int32 constant to int32 is the identity. -/
theorem C10_cast_same_dtype_identity_witness :
    TF.cast (.const .int32 5) .int32 = .const .int32 5 ∧
    TF.saturate_cast (.const .int32 5) .int32 = .const .int32 5 :=
  C10_cast_same_dtype_identity (.const .int32 5) .int32 rfl

/-- C5: when the value's rank is statically known and no axis is given, the
reduction-axis resolver returns the constant sequence `[0, 1, ..., rank-1]`,
which is strictly increasing; and any explicitly provided axis argument
(with the legacy parameter absent) is returned unchanged. -/
theorem C5_reduction_dims_default :
    (∀ r : Nat,
      TF.ReductionDims (α := List Int) (some r) none none
          = .ok (.constRange ((List.range r).map Int.ofNat)) ∧
      List.Pairwise (· < ·) (TF.arange r)) ∧
    (∀ (α : Type) (ndims : Option Nat) (a : α),
      TF.ReductionDims ndims (some a) none = .ok (.axisVal a)) := by
  refine ⟨fun r => ⟨rfl, ?_⟩, fun α ndims a => rfl⟩
  exact (List.pairwise_lt_range r).map _ (fun a b h => Int.ofNat_lt.mpr h)

/-- C9: whenever both the axis parameter and the legacy reduction-indices
parameter are supplied, the resolver fails with `ConflictingArguments`,
regardless of the values. -/
theorem C9_reduction_dims_conflict :
    ∀ (α : Type) (ndims : Option Nat) (a ri : α),
      TF.ReductionDims ndims (some a) (some ri)
        = .error .ConflictingArguments := by
  intro α ndims a ri
  rfl

/-- C1: on operands of shapes `[2,3]` and `[3,2]`, `tensordot` with scalar
axes `1` is ordinary matrix multiplication; in particular on
`A=[[1,2,3],[4,5,6]]` and `B=[[7,8],[9,10],[11,12]]` it returns
`[[58,64],[139,154]]`. -/
theorem C1_tensordot_matmul :
    (∀ da db : List Int, da.length = 6 → db.length = 6 →
      TF.tensordot ⟨[2, 3], da⟩ ⟨[3, 2], db⟩ (.scalar 1)
        = .ok (TF.matmul ⟨[2, 3], da⟩ ⟨[3, 2], db⟩)) ∧
    TF.tensordot ⟨[2, 3], [1, 2, 3, 4, 5, 6]⟩
        ⟨[3, 2], [7, 8, 9, 10, 11, 12]⟩ (.scalar 1)
      = .ok ⟨[2, 2], [58, 64, 139, 154]⟩ := by
  constructor
  · intro da db ha hb
    have hax : TF.tensordot_axes 2 (.scalar 1) = .ok (.tens [1], .tens [0]) := by
      decide
    have hA := TF.reshape_dyn_left 2 3 da (by omega)
    have hB := TF.reshape_dyn_right 3 2 db (by omega)
    simp only [TF.tensordot, TF.tensordot_reshape, List.length_cons,
      List.length_nil, hax, hA, hB]
    simp only [Bool.false_and, if_neg (by decide : ¬(false = true)),
      List.cons_append, List.nil_append, TF.reshape]
    have hsh : (TF.matmul ⟨[2, 3], da⟩ ⟨[3, 2], db⟩).shape = [2, 2] := by
      simp [TF.matmul, List.getD]
    rw [← hsh]
  · decide

/-- Witness for C1: the general rank-2 statement applied to the concrete
matrices of the claim. -/
theorem C1_tensordot_matmul_witness :
    TF.tensordot ⟨[2, 3], [1, 2, 3, 4, 5, 6]⟩
        ⟨[3, 2], [7, 8, 9, 10, 11, 12]⟩ (.scalar 1)
      = .ok (TF.matmul ⟨[2, 3], [1, 2, 3, 4, 5, 6]⟩
          ⟨[3, 2], [7, 8, 9, 10, 11, 12]⟩) :=
  C1_tensordot_matmul.1 [1, 2, 3, 4, 5, 6] [7, 8, 9, 10, 11, 12] rfl rfl

/-- C2: the code diverges from the claim's runtime-rank half.  With runtime
rank 3 and scalar axes `N = 1`, the runtime-rank branch produces the axis
lists `[2]` for A and `[0, 1, 2]` — `array_ops.range(rank)` — for B, not
the claimed `[0 .. N-1] = [0]`; the statically-known-rank branch at the
same input produces the claimed `[2]` and `[0]`. -/
theorem C2_tensordot_axes_runtime_divergence :
    TF.tensordot_axes_dynamic 3 1 = (.tens [2], .tens [0, 1, 2]) ∧
    TF.tensordot_axes 3 (.scalar 1) = .ok (.tens [2], .tens [0]) ∧
    (TF.tensordot_axes_dynamic 3 1).2 ≠ (.tens [0] : TF.AxesSpec) := by
  decide

/-- C7: tensordot fails with `InvalidAxesLength` when the two explicit axis
lists have different lengths, and with `InvalidAxisCount` when the axes
argument is a single integer below 1. -/
theorem C7_tensordot_axis_errors :
    (∀ (a b : TF.Tensor) (xs ys : List Int), xs.length ≠ ys.length →
      TF.tensordot a b (.lists [xs, ys]) = .error .InvalidAxesLength) ∧
    (∀ (a b : TF.Tensor) (n : Int), n < 1 →
      TF.tensordot a b (.scalar n) = .error .InvalidAxisCount) := by
  constructor
  · intro a b xs ys h
    simp [TF.tensordot, TF.tensordot_axes, h]
  · intro a b n h
    simp [TF.tensordot, TF.tensordot_axes, h]

/-- Witness for C7: axis lists of lengths 2 and 1 fail with
`InvalidAxesLength`; the scalar axes 0 fails with `InvalidAxisCount`. -/
theorem C7_tensordot_axis_errors_witness :
    (([0, 1] : List Int).length ≠ ([0] : List Int).length ∧
      TF.tensordot ⟨[2], [1, 2]⟩ ⟨[2], [3, 4]⟩ (.lists [[0, 1], [0]])
        = .error .InvalidAxesLength) ∧
    ((0 : Int) < 1 ∧
      TF.tensordot ⟨[2], [1, 2]⟩ ⟨[2], [3, 4]⟩ (.scalar 0)
        = .error .InvalidAxisCount) :=
  ⟨⟨by decide, C7_tensordot_axis_errors.1 ⟨[2], [1, 2]⟩ ⟨[2], [3, 4]⟩ [0, 1] [0]
      (by decide)⟩,
   ⟨by decide, C7_tensordot_axis_errors.2 ⟨[2], [1, 2]⟩ ⟨[2], [3, 4]⟩ 0
      (by decide)⟩⟩

/-- Counterexample for C6: on a rank-3 left operand, the scalar axes form 1
contracts A's last axis while the explicit pair `([1],[0])` contracts A's
axis 1, so the two results differ. -/
theorem C6_scalar_pair_counterexample :
    TF.tensordot ⟨[2, 2, 2], [0, 1, 0, 0, 0, 0, 0, 0]⟩ ⟨[2, 2], [1, 0, 0, 1]⟩
        (.scalar 1)
      ≠ TF.tensordot ⟨[2, 2, 2], [0, 1, 0, 0, 0, 0, 0, 0]⟩ ⟨[2, 2], [1, 0, 0, 1]⟩
        (.lists [[1], [0]]) := by
  decide

/-- C6 (amended): for every operand pair in which A has rank 2, tensordot
with the explicit axis pair `([1],[0])` returns a result identical to
tensordot with the scalar axes form 1. -/
theorem C6_scalar_pair_equiv (a b : TF.Tensor) (h : a.shape.length = 2) :
    TF.tensordot a b (.scalar 1) = TF.tensordot a b (.lists [[1], [0]]) := by
  have hax1 : TF.tensordot_axes a.shape.length (.scalar 1)
      = .ok (.tens [1], .tens [0]) := by rw [h]; decide
  have hax2 : TF.tensordot_axes a.shape.length (.lists [[1], [0]])
      = .ok (.lst [1], .lst [0]) := rfl
  simp only [TF.tensordot, hax1, hax2, TF.tensordot_reshape,
    TF.reshape_static_eq_dynamic, ite_self]

/-- Witness for C6: the two axis forms agree on the rank-2 matrices of the
matrix-multiplication example. -/
theorem C6_scalar_pair_equiv_witness :
    ((⟨[2, 3], [1, 2, 3, 4, 5, 6]⟩ : TF.Tensor).shape.length = 2) ∧
    TF.tensordot ⟨[2, 3], [1, 2, 3, 4, 5, 6]⟩ ⟨[3, 2], [7, 8, 9, 10, 11, 12]⟩
        (.scalar 1)
      = TF.tensordot ⟨[2, 3], [1, 2, 3, 4, 5, 6]⟩ ⟨[3, 2], [7, 8, 9, 10, 11, 12]⟩
        (.lists [[1], [0]]) :=
  ⟨rfl, C6_scalar_pair_equiv ⟨[2, 3], [1, 2, 3, 4, 5, 6]⟩
    ⟨[3, 2], [7, 8, 9, 10, 11, 12]⟩ rfl⟩
